import Mathlib

/-!
Verification of the DOM-aware WebSocket streaming extension
(src/unnamed/part_006) and its interaction with the core primitives
library (src/index.mjs).

The embedding models:
- the local document tree and the id-selector fragment of
  document.querySelector (the CSS engine itself is a browser builtin,
  external to the repository; it is abstracted as a node predicate);
- the echo tracker (the localChanges map, its DASOk listener and its
  periodic sweep);
- applyUpdate and the ws.onmessage frame-processing loop;
- the per-subscription connection state machine (connect, onopen,
  onclose, the reconnect timer, and the control object's close,
  reconnect and send members);
- the SUBSCRIBE entry points on Document.prototype and
  HTMLElement.prototype.

JavaScript mutates the document and the closure variables in place;
the embedding threads the corresponding state explicitly and returns
the new state.
-/

/-- Local document tree. An element node carries its tag name, its id
attribute and its ordered child list; every non-element node (text,
comment) is collapsed into the text constructor, which is enough
because the code only distinguishes elements from non-elements
(firstElementChild) and otherwise moves nodes around opaquely. -/
inductive DomNode where
  | elem (tag : String) (id : String) (children : List DomNode)
  | text (s : String)

/-- True on element nodes (Element vs other Node kinds in the DOM). -/
def DomNode.isElem : DomNode → Bool
  | .elem _ _ _ => true
  | .text _ => false

/-- Appending parsed nodes as children of an element, in order: models
the POST loop while (temp.firstChild) target.appendChild(temp.firstChild)
(src/unnamed/part_006 lines 75-77). On a non-element it is the
identity; document.querySelector only ever returns elements, so that
branch is never reached from applyUpdate. -/
def DomNode.appendChildren : DomNode → List DomNode → DomNode
  | .elem t i cs, ns => .elem t i (cs ++ ns)
  | .text s, _ => .text s

mutual

/-- First node, in tree (pre-)order, satisfying p; search of one node
and its subtree. -/
def findFirstNode (p : DomNode → Bool) (n : DomNode) : Option DomNode :=
  if p n then some n
  else match n with
    | .elem _ _ cs => findFirstList p cs
    | .text _ => none

/-- First node, in document order, satisfying p: models
document.querySelector's first-match semantics over a forest of roots. -/
def findFirstList (p : DomNode → Bool) : List DomNode → Option DomNode
  | [] => none
  | n :: rest =>
    match findFirstNode p n with
    | some r => some r
    | none => findFirstList p rest

end

mutual

/-- Replace the first node (pre-order) of one subtree satisfying p by
the node list f n; none when no node is matched. Replacing a node by [],
[one node] or [a rewritten node] models target.remove(),
parentNode.replaceChild(new, target) and in-place child mutation. -/
def editNode (p : DomNode → Bool) (f : DomNode → List DomNode) (n : DomNode) :
    Option (List DomNode) :=
  if p n then some (f n)
  else match n with
    | .elem t i cs => (editList p f cs).map (fun cs2 => [DomNode.elem t i cs2])
    | .text _ => none

/-- Replace the first node (document order) of a forest satisfying p
by f n; none when no node is matched. It visits nodes in the same order
as findFirstList, so it edits exactly the node querySelector found. -/
def editList (p : DomNode → Bool) (f : DomNode → List DomNode) :
    List DomNode → Option (List DomNode)
  | [] => none
  | n :: rest =>
    match editNode p f n with
    | some ns => some (ns ++ rest)
    | none => (editList p f rest).map (fun rest2 => n :: rest2)

end

/-- CSS selectors match only element nodes; engine is the abstract
selector engine (a browser builtin, external to the repository). -/
def cssMatch (engine : String → DomNode → Bool) (sel : String) (n : DomNode) : Bool :=
  n.isElem && engine sel n

/-- Concrete selector engine for id selectors: the string "#x" matches
the element whose id attribute is x. This is the fragment of CSS the
examples in this development use. -/
def idMatches (sel : String) (n : DomNode) : Bool :=
  match n with
  | .elem _ i _ => sel == "#" ++ i
  | .text _ => false

/-- JavaScript String.prototype.toUpperCase, character by character.
It is extensionally String.toUpper; stated on the character list so
that it evaluates inside the kernel. -/
def jsToUpper (s : String) : String := String.mk (s.data.map Char.toUpper)

/-- JavaScript truthiness of a possibly-undefined string: undefined
and the empty string are falsy. -/
def truthyStr : Option String → Bool
  | none => false
  | some s => s != ""

/-- CHANGE_TIMEOUT constant: 5 seconds to consider a change local
(src/unnamed/part_006 line 9). -/
def CHANGE_TIMEOUT : Nat := 5000

/-- Entry of the localChanges map: { timestamp, method, content }
(src/unnamed/part_006 lines 248-252). The method is stored
upper-cased by the DASOk listener. -/
structure LocalChange where
  timestamp : Nat
  method : String
  content : Option String

/-- The localChanges map, selector to change, as an association list
in insertion order (a JS Map). -/
def LocalChangeMap := List (String × LocalChange)

/-- JS Map.prototype.set: overwrite in place when the key is present,
append otherwise. -/
def mapSet : List (String × LocalChange) → String → LocalChange →
    List (String × LocalChange)
  | [], k, v => [(k, v)]
  | (k2, v2) :: rest, k, v =>
    if k2 == k then (k, v) :: rest else (k2, v2) :: mapSet rest k v

/-- Echo check of applyUpdate (src/unnamed/part_006 lines 44-50): an
inbound update is treated as an echo of a local change iff the map has
an entry under the update's selector whose stored method equals the
upper-cased update method and whose timestamp is less than
CHANGE_TIMEOUT old. The entry is only read, never consumed. -/
def isEcho (localChanges : List (String × LocalChange)) (now : Nat)
    (sel : String) (method : Option String) : Bool :=
  match List.lookup sel localChanges with
  | some c => (method.map jsToUpper == some c.method) &&
      decide (now - c.timestamp < CHANGE_TIMEOUT)
  | none => false

/-- HTTP response as far as the DASOk/DASError dispatch observes it. -/
structure WebResponse where
  ok : Bool

/-- Detail object of a DASOk CustomEvent as the streaming extension's
listener reads it: it destructures selector, method and content, while
the core library populates element and response. Absent properties are
none. -/
structure DASOkDetail where
  element : Option DomNode := none
  response : Option WebResponse := none
  selector : Option String := none
  method : Option String := none
  content : Option String := none

/-- Default detail object, for event.detail || {} when detail is
undefined. -/
def emptyDetail : DASOkDetail := {}

/-- Core library's processResponse (src/index.mjs lines 121-136): on a
response it dispatches DASOk when response.ok and DASError otherwise,
in both cases with detail { element, response } and nothing else. -/
def processResponseEvent (anElement : DomNode) (response : WebResponse) :
    String × DASOkDetail :=
  if response.ok then
    ("DASOk", { element := some anElement, response := some response })
  else
    ("DASError", { element := some anElement, response := some response })

/-- DASOk listener of the streaming extension (src/unnamed/part_006
lines 245-255): destructure { selector, method, content } from
event.detail || {}; when selector and method are both truthy, record
the change under the selector with the current time, the upper-cased
method and content || null. -/
def dasOkHandler (now : Nat) (localChanges : List (String × LocalChange))
    (detail : Option DASOkDetail) : List (String × LocalChange) :=
  let d := detail.getD emptyDetail
  if truthyStr d.selector && truthyStr d.method then
    match d.selector, d.method with
    | some sel, some m =>
      mapSet localChanges sel
        { timestamp := now,
          method := jsToUpper m,
          content := match d.content with
            | some c => if c == "" then none else some c
            | none => none }
    | _, _ => localChanges
  else localChanges

/-- Events that write the localChanges map: a DASOk dispatch reaching
the listener, and a tick of the cleanup interval (src/unnamed/part_006
lines 12-19), which deletes every entry strictly older than
CHANGE_TIMEOUT. -/
inductive TrackerEvent where
  | dasOk (now : Nat) (detail : Option DASOkDetail)
  | sweep (now : Nat)

/-- One tracker event applied to the map. -/
def trackerStep (localChanges : List (String × LocalChange)) :
    TrackerEvent → List (String × LocalChange)
  | .dasOk now d => dasOkHandler now localChanges d
  | .sweep now =>
      localChanges.filter (fun p => !decide (now - p.2.timestamp > CHANGE_TIMEOUT))

/-- Update record produced by parseStreamItem (src/unnamed/part_006
lines 29-37): each field is the text of the corresponding itemprop
node and may be absent. -/
structure Update where
  method : Option String := none
  url : Option String := none
  selector : Option String := none
  content : Option String := none

/-- Return value of applyUpdate: one of the action objects, or the
JavaScript false for every fall-through path (no selector, echo,
target not found, missing or empty content, no element in PUT content,
unrecognized method). -/
inductive ApplyResult where
  | replaced (element : DomNode)
  | appended (element : DomNode)
  | deleted (selector : String)
  | notApplied

/-- JS truthiness of an ApplyResult: the action objects are truthy,
the false return is falsy. -/
def ApplyResult.isTruthy : ApplyResult → Bool
  | .notApplied => false
  | _ => true

/-- applyUpdate (src/unnamed/part_006 lines 40-88). parse is the
browser HTML fragment parser (temp.innerHTML assignment followed by
reading temp's child nodes); engine is the selector engine. Returns
the result together with the document forest after the mutation. -/
def applyUpdate (parse : String → List DomNode)
    (engine : String → DomNode → Bool)
    (localChanges : List (String × LocalChange)) (now : Nat)
    (doc : List DomNode) (update : Update) : ApplyResult × List DomNode :=
  match update.selector with
  | none => (.notApplied, doc)
  | some sel =>
    if sel == "" then (.notApplied, doc)
    else if isEcho localChanges now sel update.method then (.notApplied, doc)
    else
      match findFirstList (cssMatch engine sel) doc with
      | none => (.notApplied, doc)
      | some target =>
        match update.method.map jsToUpper with
        | some "PUT" =>
          if truthyStr update.content then
            let temp := parse (update.content.getD "")
            match temp.find? DomNode.isElem with
            | some newElement =>
              match editList (cssMatch engine sel) (fun _ => [newElement]) doc with
              | some doc2 => (.replaced newElement, doc2)
              | none => (.notApplied, doc)
            | none => (.notApplied, doc)
          else (.notApplied, doc)
        | some "POST" =>
          if truthyStr update.content then
            let nodes := parse (update.content.getD "")
            match editList (cssMatch engine sel)
                (fun n => [n.appendChildren nodes]) doc with
            | some doc2 => (.appended (target.appendChildren nodes), doc2)
            | none => (.notApplied, doc)
          else (.notApplied, doc)
        | some "DELETE" =>
          match editList (cssMatch engine sel) (fun _ => []) doc with
          | some doc2 => (.deleted sel, doc2)
          | none => (.notApplied, doc)
        | _ => (.notApplied, doc)

/-- One DASStreamUpdate dispatch together with the synchronous
onUpdate callback invocation; both carry (update, result). -/
structure StreamNotification where
  update : Update
  result : ApplyResult

/-- Processing of one StreamItem inside ws.onmessage (src/unnamed/
part_006 lines 136-150): apply the update, then, only if the result is
truthy, dispatch DASStreamUpdate and call onUpdate synchronously. -/
def processStreamItem (parse : String → List DomNode)
    (engine : String → DomNode → Bool)
    (localChanges : List (String × LocalChange)) (now : Nat)
    (doc : List DomNode) (u : Update) :
    List DomNode × List StreamNotification :=
  let r := applyUpdate parse engine localChanges now doc u
  if r.1.isTruthy then (r.2, [⟨u, r.1⟩]) else (r.2, [])

/-- Frame processing loop: streamItems.forEach over the decoded items,
in document order, each item's application and notifications completing
before the next item is looked at. -/
def processFrame (parse : String → List DomNode)
    (engine : String → DomNode → Bool)
    (localChanges : List (String × LocalChange)) (now : Nat)
    (doc : List DomNode) : List Update → List DomNode × List StreamNotification
  | [] => (doc, [])
  | u :: rest =>
    let r := processStreamItem parse engine localChanges now doc u
    let r2 := processFrame parse engine localChanges now r.1 rest
    (r2.1, r.2 ++ r2.2)

/-- Options of Document.prototype.SUBSCRIBE relevant to the connection
state machine, with their defaults (src/unnamed/part_006 lines
99-101). -/
structure SubscribeConfig where
  reconnect : Bool := true
  reconnectDelay : Nat := 1000
  maxReconnectDelay : Nat := 30000

/-- Default options. -/
def defaultConfig : SubscribeConfig := {}

/-- Closure state of one SUBSCRIBE call: the ws variable (identified
by an allocation id), the set of channels on which close() was called,
the pending reconnect timer with its scheduled delay, the backoff
delay, and the isIntentionallyClosed flag. nextId feeds fresh channel
ids to new WebSocket(...). -/
structure ConnState where
  ws : Option Nat := none
  nextId : Nat := 0
  closedIds : List Nat := []
  pendingDelay : Option Nat := none
  currentReconnectDelay : Nat := 1000
  isIntentionallyClosed : Bool := false

/-- connect() (src/unnamed/part_006 lines 109-188): allocate a fresh
WebSocket and store it in ws. -/
def doConnect (st : ConnState) : ConnState :=
  { st with ws := some st.nextId, nextId := st.nextId + 1 }

/-- Control object's close() (src/unnamed/part_006 lines 199-205): set
isIntentionallyClosed, clear any pending reconnect timer, close the
current channel. The ws variable itself is not nulled. -/
def controlClose (st : ConnState) : ConnState :=
  { st with
    isIntentionallyClosed := true,
    pendingDelay := none,
    closedIds := match st.ws with
      | some i => i :: st.closedIds
      | none => st.closedIds }

/-- Control object's reconnect() (src/unnamed/part_006 lines 207-211),
in source order: isIntentionallyClosed = false; this.close();
connect(). -/
def controlReconnect (st : ConnState) : ConnState :=
  doConnect (controlClose { st with isIntentionallyClosed := false })

/-- Asynchronous events delivered to one subscription's closure:
ws.onopen, ws.onclose, and the reconnect setTimeout callback running.
A cleared timer never fires, so timerFire on a state with no pending
timer is the identity. -/
inductive ConnEvent where
  | wsOpen
  | wsClose
  | timerFire

/-- Event handlers (src/unnamed/part_006 lines 113-125 and 162-182):
onopen resets currentReconnectDelay to reconnectDelay; onclose
schedules a reconnect after currentReconnectDelay when the reconnect
option is on and the close was not intentional; the timer callback
runs connect() and then doubles currentReconnectDelay, capped at
maxReconnectDelay. -/
def connStep (cfg : SubscribeConfig) (st : ConnState) : ConnEvent → ConnState
  | .wsOpen => { st with currentReconnectDelay := cfg.reconnectDelay }
  | .wsClose =>
    if cfg.reconnect && !st.isIntentionallyClosed then
      { st with pendingDelay := some st.currentReconnectDelay }
    else st
  | .timerFire =>
    match st.pendingDelay with
    | some _ =>
      let st2 := doConnect { st with pendingDelay := none }
      let doubled := min (st2.currentReconnectDelay * 2) cfg.maxReconnectDelay
      { st2 with currentReconnectDelay := doubled }
    | none => st

/-- One involuntary-close cycle with no intervening successful open:
the channel closes, then the scheduled timer fires. -/
def closeCycle (cfg : SubscribeConfig) (st : ConnState) : ConnState :=
  connStep cfg (connStep cfg st .wsClose) .timerFire

/-- n consecutive involuntary-close cycles. -/
def iterCycles (cfg : SubscribeConfig) : Nat → ConnState → ConnState
  | 0, st => st
  | n + 1, st => iterCycles cfg n (closeCycle cfg st)

/-- Delay scheduled at the n-th consecutive involuntary close
(0-indexed), with no successful open in between. -/
def scheduledDelay (cfg : SubscribeConfig) (st : ConnState) (n : Nat) : Option Nat :=
  (connStep cfg (iterCycles cfg n st) .wsClose).pendingDelay

/-- Page-level allocation state for SUBSCRIBE calls: each call runs
connect(), which constructs its own new WebSocket; openChannels are
the channels not yet closed. -/
structure SubWorld where
  nextChannel : Nat := 0
  openChannels : List Nat := []

/-- Handle returned by a SUBSCRIBE call, identified by the channel its
closure owns. -/
structure SubHandle where
  channel : Nat

/-- Document.prototype.SUBSCRIBE (src/unnamed/part_006 lines 91-222):
creates its own closure with ws = null and immediately runs connect(),
allocating a fresh WebSocket. -/
def documentSubscribe (w : SubWorld) : SubWorld × SubHandle :=
  ({ nextChannel := w.nextChannel + 1,
     openChannels := w.nextChannel :: w.openChannels },
   ⟨w.nextChannel⟩)

/-- HTMLElement.prototype.SUBSCRIBE (src/unnamed/part_006 lines
225-242): wraps onUpdate with a selector filter and then calls
document.SUBSCRIBE, so it too allocates its own channel. -/
def elementSubscribe (w : SubWorld) : SubWorld × SubHandle :=
  documentSubscribe w

/-- Closing one subscription's control object closes the channel its
own closure holds and nothing else. -/
def subscriptionClose (w : SubWorld) (s : SubHandle) : SubWorld :=
  { w with openChannels := w.openChannels.erase s.channel }

/-- onUpdate filter installed by HTMLElement.prototype.SUBSCRIBE
(src/unnamed/part_006 lines 234-239): forward the callback only when
the update's selector is exactly the element's own selector. -/
def elementFilterAccepts (elementSelector : String) (u : Update) : Bool :=
  u.selector == some elementSelector

/-! Helper facts shared by the theorems below. -/

theorem jsToUpper_PUT : jsToUpper "PUT" = "PUT" := by decide

theorem jsToUpper_POST : jsToUpper "POST" = "POST" := by decide

theorem jsToUpper_DELETE : jsToUpper "DELETE" = "DELETE" := by decide

theorem min_double_absorb (a M : Nat) : min (min a M * 2) M = min (a * 2) M := by
  rcases Nat.le_total a M with h | h
  · rw [Nat.min_eq_left h]
  · rw [Nat.min_eq_right h, Nat.min_eq_right (by omega), Nat.min_eq_right (by omega)]

theorem iterCycles_delay (n : Nat) : ∀ (k : Nat) (st : ConnState),
    st.currentReconnectDelay = min (1000 * 2 ^ k) 30000 →
    st.isIntentionallyClosed = false →
    (iterCycles defaultConfig n st).currentReconnectDelay =
      min (1000 * 2 ^ (k + n)) 30000 ∧
    (iterCycles defaultConfig n st).isIntentionallyClosed = false := by
  induction n with
  | zero => intro k st h1 h2; exact ⟨h1, h2⟩
  | succ m ih =>
    intro k st h1 h2
    have hcycle : closeCycle defaultConfig st =
        { (connStep defaultConfig st ConnEvent.wsClose) with
            pendingDelay := none,
            ws := some st.nextId,
            nextId := st.nextId + 1,
            currentReconnectDelay := min (st.currentReconnectDelay * 2) 30000 } := by
      simp [closeCycle, connStep, defaultConfig, doConnect, h2]
    have h3 : (closeCycle defaultConfig st).currentReconnectDelay =
        min (1000 * 2 ^ (k + 1)) 30000 := by
      rw [hcycle]
      simp only [h1]
      rw [min_double_absorb]
      congr 1
      rw [pow_succ, ← mul_assoc]
    have h4 : (closeCycle defaultConfig st).isIntentionallyClosed = false := by
      rw [hcycle]
      simp [connStep, defaultConfig, h2]
    have := ih (k + 1) (closeCycle defaultConfig st) h3 h4
    rw [iterCycles]
    constructor
    · rw [this.1]
      have he : k + 1 + m = k + (m + 1) := by omega
      rw [he]
    · exact this.2

/-- C5: with initialDelay = 1000 and maxDelay = 30000, the delays
scheduled at consecutive involuntary closes with no intervening
successful open are 1000, 2000, 4000, 8000, 16000, 30000, 30000, ...:
the delay scheduled at the n-th close is min (1000 * 2 ^ n) 30000,
each one the double of the previous one capped at 30000, and every
successful open resets the next scheduled delay to 1000. -/
theorem c5_backoff_delay_sequence (st : ConnState)
    (h1 : st.currentReconnectDelay = 1000)
    (h2 : st.isIntentionallyClosed = false) :
    (∀ n, scheduledDelay defaultConfig st n = some (min (1000 * 2 ^ n) 30000)) ∧
    ((List.range 7).map fun n => scheduledDelay defaultConfig st n) =
      [some 1000, some 2000, some 4000, some 8000, some 16000,
       some 30000, some 30000] ∧
    (∀ s : ConnState, (connStep defaultConfig s ConnEvent.wsOpen).currentReconnectDelay = 1000) := by
  have h1x : st.currentReconnectDelay = min (1000 * 2 ^ 0) 30000 := by
    rw [h1]; decide
  have hrec : defaultConfig.reconnect = true := rfl
  have key : ∀ n, scheduledDelay defaultConfig st n = some (min (1000 * 2 ^ n) 30000) := by
    intro n
    have h := iterCycles_delay n 0 st h1x h2
    rw [Nat.zero_add] at h
    unfold scheduledDelay
    simp [connStep, hrec, h.2, h.1]
  refine ⟨key, ?_, ?_⟩
  · simp only [key]
    decide
  · intro s
    simp [connStep, defaultConfig]

theorem c5_witness :
    ((List.range 7).map fun n => scheduledDelay defaultConfig {} n) =
      [some 1000, some 2000, some 4000, some 8000, some 16000,
       some 30000, some 30000] :=
  (c5_backoff_delay_sequence {} rfl rfl).2.1

theorem connStep_preserves_closed (cfg : SubscribeConfig) :
    ∀ (evs : List ConnEvent) (st : ConnState),
    st.isIntentionallyClosed = true → st.pendingDelay = none →
    (evs.foldl (connStep cfg) st).isIntentionallyClosed = true ∧
    (evs.foldl (connStep cfg) st).pendingDelay = none ∧
    (evs.foldl (connStep cfg) st).ws = st.ws ∧
    (evs.foldl (connStep cfg) st).nextId = st.nextId := by
  intro evs
  induction evs with
  | nil => intro st h1 h2; exact ⟨h1, h2, rfl, rfl⟩
  | cons ev rest ih =>
    intro st h1 h2
    have hflag : (connStep cfg st ev).isIntentionallyClosed = true := by
      cases ev <;> simp [connStep, h1, h2]
    have hpend : (connStep cfg st ev).pendingDelay = none := by
      cases ev <;> simp [connStep, h1, h2]
    have hws2 : (connStep cfg st ev).ws = st.ws := by
      cases ev <;> simp [connStep, h1, h2]
    have hnext : (connStep cfg st ev).nextId = st.nextId := by
      cases ev <;> simp [connStep, h1, h2]
    rw [List.foldl_cons]
    have := ih (connStep cfg st ev) hflag hpend
    refine ⟨this.1, this.2.1, ?_, ?_⟩
    · rw [this.2.2.1, hws2]
    · rw [this.2.2.2, hnext]

/-- C6: after the control object's close() runs, the pending
reconnect timer (if any) is cancelled and no automatic event sequence
(open, close, or timer callbacks) ever schedules a reconnect again or
opens a new channel: the pending timer stays cleared, the ws variable
never changes, and no new WebSocket is allocated, so no connecting
notification can follow. -/
theorem c6_close_cancels_reconnect (cfg : SubscribeConfig) (st : ConnState)
    (evs : List ConnEvent) :
    (evs.foldl (connStep cfg) (controlClose st)).pendingDelay = none ∧
    (evs.foldl (connStep cfg) (controlClose st)).ws = st.ws ∧
    (evs.foldl (connStep cfg) (controlClose st)).nextId = st.nextId ∧
    (evs.foldl (connStep cfg) (controlClose st)).isIntentionallyClosed = true := by
  have h := connStep_preserves_closed cfg evs (controlClose st) rfl rfl
  exact ⟨h.2.1, h.2.2.1, h.2.2.2, h.1⟩

/-- C4 (evaluation of the code at the failing scenario): after the
control object's reconnect() runs, isIntentionallyClosed is true, not
false — reconnect() sets the flag to false but the this.close() call
inside it sets it back to true before connect() runs. The old channel
is closed and a fresh one is opened immediately with no timer wait,
but because the flag is left true, a later involuntary close of the
new channel schedules no automatic reconnection. -/
theorem c4_reconnect_flag_bug (cfg : SubscribeConfig) (st : ConnState) :
    (controlReconnect st).isIntentionallyClosed = true ∧
    (controlReconnect st).ws = some st.nextId ∧
    (controlReconnect st).nextId = st.nextId + 1 ∧
    (controlReconnect st).pendingDelay = none ∧
    (controlReconnect st).closedIds =
      (match st.ws with
       | some i => i :: st.closedIds
       | none => st.closedIds) ∧
    (connStep cfg (controlReconnect st) ConnEvent.wsClose).pendingDelay = none := by
  refine ⟨rfl, rfl, rfl, rfl, rfl, ?_⟩
  simp [connStep, controlReconnect, controlClose, doConnect]

theorem trackerStep_core_nil (ev : TrackerEvent)
    (h : ∀ n d, ev = TrackerEvent.dasOk n d →
      ∃ e r, d = some ((processResponseEvent e r).2)) :
    trackerStep [] ev = [] := by
  cases ev with
  | dasOk n d =>
    obtain ⟨e, r, rfl⟩ := h n d rfl
    cases hr : r.ok <;>
      simp [trackerStep, dasOkHandler, processResponseEvent, hr, truthyStr]
  | sweep now => rfl

theorem foldl_trackerStep_core_nil (evs : List TrackerEvent) :
    (∀ ev ∈ evs, ∀ n d, ev = TrackerEvent.dasOk n d →
      ∃ e r, d = some ((processResponseEvent e r).2)) →
    evs.foldl trackerStep [] = [] := by
  induction evs with
  | nil => intro _; rfl
  | cons ev rest ih =>
    intro h
    rw [List.foldl_cons, trackerStep_core_nil ev (h ev (List.mem_cons_self ev rest))]
    exact ih (fun e he => h e (List.mem_cons_of_mem ev he))

/-- C2: when every DASOk event reaching the tracker's listener was
dispatched by the core library's processResponse — whose detail is
{ element, response }, with no selector and no method property — the
localChanges map stays empty through any sequence of listener
invocations and sweep ticks, and consequently the echo check rejects
every inbound update: nothing is ever suppressed as an echo. -/
theorem c2_core_dasok_never_records (evs : List TrackerEvent)
    (h : ∀ ev ∈ evs, ∀ n d, ev = TrackerEvent.dasOk n d →
      ∃ e r, d = some ((processResponseEvent e r).2)) :
    evs.foldl trackerStep [] = [] ∧
    ∀ now sel m, isEcho (evs.foldl trackerStep []) now sel m = false := by
  have hmain := foldl_trackerStep_core_nil evs h
  refine ⟨hmain, fun now sel m => ?_⟩
  rw [hmain]
  rfl

theorem c2_witness :
    ([TrackerEvent.dasOk 5 (some ((processResponseEvent (DomNode.text "x") ⟨true⟩).2)),
      TrackerEvent.sweep 9000].foldl trackerStep [] = []) ∧
    isEcho ([TrackerEvent.dasOk 5 (some ((processResponseEvent (DomNode.text "x") ⟨true⟩).2)),
      TrackerEvent.sweep 9000].foldl trackerStep []) 6 "#a" (some "PUT") = false := by
  have h := c2_core_dasok_never_records
    [TrackerEvent.dasOk 5 (some ((processResponseEvent (DomNode.text "x") ⟨true⟩).2)),
     TrackerEvent.sweep 9000]
    (by
      intro ev hev n d hd
      simp only [List.mem_cons, List.not_mem_nil, or_false] at hev
      rcases hev with rfl | rfl
      · injection hd with h1 h2
        exact ⟨DomNode.text "x", ⟨true⟩, h2.symm⟩
      · simp at hd)
  exact ⟨h.1, h.2 6 "#a" (some "PUT")⟩

/-- C3 counterexample: a document-scoped SUBSCRIBE and a node-scoped
SUBSCRIBE on the same page do not share one underlying channel — each
call runs its own connect() and allocates its own WebSocket, so the
two control objects hold distinct channels. -/
theorem c3_counterexample :
    (((documentSubscribe {}).2.channel ==
      (elementSubscribe (documentSubscribe {}).1).2.channel) = false) := by
  decide

/-- C3 amended: every SUBSCRIBE call (document- or element-scoped)
creates its own underlying channel; the two handles always name
distinct channels, and closing either subscription's control object
closes only its own channel, leaving the other subscription's channel
open. -/
theorem c3_each_subscription_own_channel (w : SubWorld) :
    (((documentSubscribe w).2.channel ==
      (elementSubscribe (documentSubscribe w).1).2.channel) = false) ∧
    (elementSubscribe (documentSubscribe w).1).2.channel ∈
      (subscriptionClose (elementSubscribe (documentSubscribe w).1).1
        (documentSubscribe w).2).openChannels ∧
    (documentSubscribe w).2.channel ∈
      (subscriptionClose (elementSubscribe (documentSubscribe w).1).1
        (elementSubscribe (documentSubscribe w).1).2).openChannels := by
  refine ⟨?_, ?_, ?_⟩
  · simp only [documentSubscribe, elementSubscribe, beq_eq_false_iff_ne, ne_eq]
    omega
  · simp only [documentSubscribe, elementSubscribe, subscriptionClose]
    exact (List.mem_erase_of_ne (by omega)).mpr (by simp)
  · simp only [documentSubscribe, elementSubscribe, subscriptionClose]
    rw [List.erase_cons_head]
    simp

theorem processFrame_cons (parse : String → List DomNode)
    (engine : String → DomNode → Bool)
    (lc : List (String × LocalChange)) (now : Nat)
    (doc : List DomNode) (u : Update) (rest : List Update) :
    processFrame parse engine lc now doc (u :: rest) =
      ((processFrame parse engine lc now
          (processStreamItem parse engine lc now doc u).1 rest).1,
       (processStreamItem parse engine lc now doc u).2 ++
       (processFrame parse engine lc now
          (processStreamItem parse engine lc now doc u).1 rest).2) := rfl

theorem processFrame_append (parse : String → List DomNode)
    (engine : String → DomNode → Bool)
    (lc : List (String × LocalChange)) (now : Nat) :
    ∀ (xs ys : List Update) (doc : List DomNode),
    processFrame parse engine lc now doc (xs ++ ys) =
      ((processFrame parse engine lc now
          (processFrame parse engine lc now doc xs).1 ys).1,
       (processFrame parse engine lc now doc xs).2 ++
       (processFrame parse engine lc now
          (processFrame parse engine lc now doc xs).1 ys).2) := by
  intro xs
  induction xs with
  | nil => intro ys doc; simp [processFrame]
  | cons x xs ih =>
    intro ys doc
    rw [List.cons_append, processFrame_cons, ih,
      processFrame_cons parse engine lc now doc x xs]
    simp [List.append_assoc]

theorem processFrame_trace_sublist (parse : String → List DomNode)
    (engine : String → DomNode → Bool)
    (lc : List (String × LocalChange)) (now : Nat) :
    ∀ (items : List Update) (doc : List DomNode),
    List.Sublist
      ((processFrame parse engine lc now doc items).2.map StreamNotification.update)
      items := by
  intro items
  induction items with
  | nil => intro doc; simp [processFrame]
  | cons u rest ih =>
    intro doc
    rw [processFrame_cons]
    by_cases hc : (applyUpdate parse engine lc now doc u).1.isTruthy = true
    · have hitem : (processStreamItem parse engine lc now doc u).2 =
          [⟨u, (applyUpdate parse engine lc now doc u).1⟩] := by
        simp [processStreamItem, hc]
      rw [hitem]
      simpa using List.Sublist.cons₂ u (ih _)
    · have hitem : (processStreamItem parse engine lc now doc u).2 = [] := by
        simp [processStreamItem, hc]
      rw [hitem]
      simpa using List.Sublist.cons u (ih _)

/-- C9: frame processing visits the Updates in frame order; each
Update's application and its notifications complete before the next
Update is processed — processing a frame xs ++ ys equals processing xs
first, then ys on the resulting document, with the notification trace
of xs entirely preceding that of ys — and the sequence of notified
updates is a subsequence of the frame, in frame order. -/
theorem c9_frame_order (parse : String → List DomNode)
    (engine : String → DomNode → Bool)
    (lc : List (String × LocalChange)) (now : Nat)
    (doc : List DomNode) (xs ys : List Update) :
    (processFrame parse engine lc now doc (xs ++ ys) =
      ((processFrame parse engine lc now
          (processFrame parse engine lc now doc xs).1 ys).1,
       (processFrame parse engine lc now doc xs).2 ++
       (processFrame parse engine lc now
          (processFrame parse engine lc now doc xs).1 ys).2)) ∧
    List.Sublist
      ((processFrame parse engine lc now doc (xs ++ ys)).2.map StreamNotification.update)
      (xs ++ ys) :=
  ⟨processFrame_append parse engine lc now xs ys doc,
   processFrame_trace_sublist parse engine lc now (xs ++ ys) doc⟩

/-- C1 counterexample: with a local PUT on "#a" recorded at time 0 and
echoTTL = 5000, a frame carrying two inbound PUT "#a" updates at time
100 has both of them suppressed — the document is unchanged and no
notification fires — because the suppression check never consumes the
localChanges entry; the claim's "suppressed exactly once, the
subsequent inbound PUT within the TTL window is applied" is false.
The second conjunct shows the same update does apply (replacing the
node) when no echo entry is present, so suppression is the cause. -/
theorem c1_counterexample :
    (processFrame (fun _ => [DomNode.elem "p" "" []]) idMatches
      [("#a", ⟨0, "PUT", none⟩)] 100
      [DomNode.elem "p" "a" []]
      [{ method := some "PUT", selector := some "#a", content := some "<p></p>" },
       { method := some "PUT", selector := some "#a", content := some "<p></p>" }] =
      ([DomNode.elem "p" "a" []], [])) ∧
    (applyUpdate (fun _ => [DomNode.elem "p" "" []]) idMatches [] 100
      [DomNode.elem "p" "a" []]
      { method := some "PUT", selector := some "#a", content := some "<p></p>" } =
      (ApplyResult.replaced (DomNode.elem "p" "" []), [DomNode.elem "p" "" []])) := by
  constructor <;>
    simp [processFrame, processStreamItem, applyUpdate, isEcho, List.lookup,
      jsToUpper_PUT, CHANGE_TIMEOUT, ApplyResult.isTruthy, truthyStr, cssMatch,
      idMatches, DomNode.isElem, findFirstList, findFirstNode, editList,
      editNode, List.find?]

/-- C1 amended: while a locally recorded PUT on a selector is younger
than CHANGE_TIMEOUT, every inbound PUT on that selector is suppressed
(not just the first one — the record is not consumed on suppression);
once the record is at least CHANGE_TIMEOUT old the echo check rejects
nothing and the update is applied exactly as it would be with no
record at all. -/
theorem c1_echo_window (parse : String → List DomNode)
    (engine : String → DomNode → Bool)
    (lc : List (String × LocalChange)) (doc : List DomNode) (u : Update)
    (sel : String) (c : LocalChange) (now1 now2 : Nat)
    (hsel : u.selector = some sel) (hne : (sel == "") = false)
    (hlk : List.lookup sel lc = some c)
    (hm : u.method = some "PUT") (hcm : c.method = "PUT")
    (hin : now1 - c.timestamp < CHANGE_TIMEOUT)
    (hout : CHANGE_TIMEOUT ≤ now2 - c.timestamp) :
    applyUpdate parse engine lc now1 doc u = (ApplyResult.notApplied, doc) ∧
    isEcho lc now2 sel u.method = false ∧
    applyUpdate parse engine lc now2 doc u =
      applyUpdate parse engine [] now2 doc u := by
  have hecho1 : isEcho lc now1 sel u.method = true := by
    rw [hm]
    simp [isEcho, hlk, hcm, jsToUpper_PUT, hin]
  have hnotlt : ¬ (now2 - c.timestamp < CHANGE_TIMEOUT) := by omega
  have hecho2 : isEcho lc now2 sel u.method = false := by
    simp [isEcho, hlk, hnotlt]
  refine ⟨?_, hecho2, ?_⟩
  · simp [applyUpdate, hsel, hne, hecho1]
  · have h0 : isEcho ([] : List (String × LocalChange)) now2 sel u.method = false := rfl
    simp [applyUpdate, hsel, hne, hecho2, h0]

theorem c1_witness :
    applyUpdate (fun _ => []) idMatches [("#a", ⟨0, "PUT", none⟩)] 10 []
      { method := some "PUT", selector := some "#a" } =
      (ApplyResult.notApplied, []) ∧
    isEcho [("#a", ⟨0, "PUT", none⟩)] 6000 "#a"
      (Update.method { method := some "PUT", selector := some "#a" }) = false ∧
    applyUpdate (fun _ => []) idMatches [("#a", ⟨0, "PUT", none⟩)] 6000 []
      { method := some "PUT", selector := some "#a" } =
      applyUpdate (fun _ => []) idMatches [] 6000 []
      { method := some "PUT", selector := some "#a" } :=
  c1_echo_window (fun _ => []) idMatches [("#a", ⟨0, "PUT", none⟩)] []
    { method := some "PUT", selector := some "#a" } "#a" ⟨0, "PUT", none⟩ 10 6000
    rfl (by decide) rfl rfl rfl (by decide) (by decide)

/-- C7 counterexample: a PUT whose content parses to two top-level
elements does not fail with InvalidContent and does not leave the tree
unchanged — applyUpdate takes temp.firstElementChild, replaces the
matched node with the first parsed element, mutates the tree, and
returns the replaced action. -/
theorem c7_counterexample :
    applyUpdate (fun _ => [DomNode.elem "a" "" [], DomNode.elem "b" "" []])
      idMatches [] 0 [DomNode.elem "div" "x" []]
      { method := some "PUT", selector := some "#x",
        content := some "<a></a><b></b>" } =
      (ApplyResult.replaced (DomNode.elem "a" "" []),
       [DomNode.elem "a" "" []]) := by
  simp [applyUpdate, isEcho, List.lookup, jsToUpper_PUT, truthyStr, cssMatch,
    idMatches, DomNode.isElem, findFirstList, findFirstNode, editList,
    editNode, List.find?]

/-- C7 amended: for a PUT update on a resolvable address that is not
an echo and whose content is a non-empty string: if the parsed content
contains at least one top-level element, the matched node itself is
replaced by the first such element and the result is replaced; if the
parsed content contains no top-level element, the result is the falsy
no-application — no failure value exists and the tree is unchanged. -/
theorem c7_put_replaces_with_first_element (parse : String → List DomNode)
    (engine : String → DomNode → Bool)
    (lc : List (String × LocalChange)) (now : Nat)
    (doc : List DomNode) (u : Update) (sel : String) (target : DomNode)
    (hsel : u.selector = some sel) (hne : (sel == "") = false)
    (hecho : isEcho lc now sel u.method = false)
    (hm : u.method = some "PUT")
    (htr : truthyStr u.content = true)
    (hfind : findFirstList (cssMatch engine sel) doc = some target) :
    (∀ ne doc2, (parse (u.content.getD "")).find? DomNode.isElem = some ne →
      editList (cssMatch engine sel) (fun _ => [ne]) doc = some doc2 →
      applyUpdate parse engine lc now doc u = (ApplyResult.replaced ne, doc2)) ∧
    ((parse (u.content.getD "")).find? DomNode.isElem = none →
      applyUpdate parse engine lc now doc u = (ApplyResult.notApplied, doc)) := by
  rw [hm] at hecho
  constructor
  · intro ne doc2 hfe hed
    simp [applyUpdate, hsel, hne, hecho, hm, jsToUpper_PUT, htr, hfind, hfe, hed]
  · intro hfe
    simp [applyUpdate, hsel, hne, hecho, hm, jsToUpper_PUT, htr, hfind, hfe]

theorem c7_witness :
    applyUpdate (fun _ => [DomNode.elem "li" "" []]) idMatches [] 0
      [DomNode.elem "div" "x" []]
      { method := some "PUT", selector := some "#x", content := some "<li></li>" } =
      (ApplyResult.replaced (DomNode.elem "li" "" []), [DomNode.elem "li" "" []]) := by
  have h := c7_put_replaces_with_first_element (fun _ => [DomNode.elem "li" "" []])
    idMatches [] 0 [DomNode.elem "div" "x" []]
    { method := some "PUT", selector := some "#x", content := some "<li></li>" }
    "#x" (DomNode.elem "div" "x" []) rfl (by decide) rfl rfl (by decide)
    (by simp [findFirstList, findFirstNode, cssMatch, idMatches, DomNode.isElem])
  exact h.1 (DomNode.elem "li" "" []) [DomNode.elem "li" "" []] rfl
    (by simp [editList, editNode, cssMatch, idMatches, DomNode.isElem])

/-- C8 counterexample: a POST whose content is the empty string —
which decodes to zero top-level nodes — does not return appended: the
JavaScript truthiness check if (update.content) fails on "" and
applyUpdate returns false with nothing appended. -/
theorem c8_counterexample :
    applyUpdate (fun _ => []) idMatches [] 0 [DomNode.elem "ul" "list" []]
      { method := some "POST", selector := some "#list", content := some "" } =
      (ApplyResult.notApplied, [DomNode.elem "ul" "list" []]) := by
  simp [applyUpdate, isEcho, List.lookup, jsToUpper_POST, truthyStr, cssMatch,
    idMatches, DomNode.isElem, findFirstList, findFirstNode]

/-- C8 amended: for a POST update on a resolvable address that is not
an echo and whose content is a non-empty string, all parsed top-level
nodes (zero or more) are appended as children of the matched node in
content order, and the result is appended carrying the mutated target;
an absent or empty content string instead yields the falsy
no-application with nothing appended. -/
theorem c8_post_appends_in_order (parse : String → List DomNode)
    (engine : String → DomNode → Bool)
    (lc : List (String × LocalChange)) (now : Nat)
    (doc : List DomNode) (u : Update) (sel : String) (target : DomNode)
    (hsel : u.selector = some sel) (hne : (sel == "") = false)
    (hecho : isEcho lc now sel u.method = false)
    (hm : u.method = some "POST")
    (hfind : findFirstList (cssMatch engine sel) doc = some target) :
    (∀ doc2, truthyStr u.content = true →
      editList (cssMatch engine sel)
        (fun n => [n.appendChildren (parse (u.content.getD ""))]) doc = some doc2 →
      applyUpdate parse engine lc now doc u =
        (ApplyResult.appended (target.appendChildren (parse (u.content.getD ""))),
         doc2)) ∧
    (truthyStr u.content = false →
      applyUpdate parse engine lc now doc u = (ApplyResult.notApplied, doc)) := by
  rw [hm] at hecho
  constructor
  · intro doc2 htr hed
    simp [applyUpdate, hsel, hne, hecho, hm, jsToUpper_POST, htr, hfind, hed]
  · intro htr
    simp [applyUpdate, hsel, hne, hecho, hm, jsToUpper_POST, htr, hfind]

theorem c8_witness :
    applyUpdate
      (fun _ => [DomNode.elem "li" "" [DomNode.text "1"],
                 DomNode.elem "li" "" [DomNode.text "2"]])
      idMatches [] 0 [DomNode.elem "ul" "list" []]
      { method := some "POST", selector := some "#list",
        content := some "<li>1</li><li>2</li>" } =
      (ApplyResult.appended
        (DomNode.elem "ul" "list"
          [DomNode.elem "li" "" [DomNode.text "1"],
           DomNode.elem "li" "" [DomNode.text "2"]]),
       [DomNode.elem "ul" "list"
          [DomNode.elem "li" "" [DomNode.text "1"],
           DomNode.elem "li" "" [DomNode.text "2"]]]) := by
  have h := c8_post_appends_in_order
    (fun _ => [DomNode.elem "li" "" [DomNode.text "1"],
               DomNode.elem "li" "" [DomNode.text "2"]])
    idMatches [] 0 [DomNode.elem "ul" "list" []]
    { method := some "POST", selector := some "#list",
      content := some "<li>1</li><li>2</li>" }
    "#list" (DomNode.elem "ul" "list" []) rfl (by decide) rfl rfl
    (by simp [findFirstList, findFirstNode, cssMatch, idMatches, DomNode.isElem])
  have h2 := h.1
    [DomNode.elem "ul" "list"
      [DomNode.elem "li" "" [DomNode.text "1"],
       DomNode.elem "li" "" [DomNode.text "2"]]]
    (by decide)
    (by simp [editList, editNode, cssMatch, idMatches, DomNode.isElem,
          DomNode.appendChildren])
  simpa [DomNode.appendChildren] using h2

/-- C10 counterexample: in the frame [DELETE "#missing", POST "#list"
"<li>x</li>"] where no node matches "#missing", the unmatched DELETE
produces no notification of any kind — there is no AddressNotFound
failure and no apply-error report, the result is simply falsy — while
the tree is untouched by it and processing continues: the following
POST is applied and notified as the only trace entry. -/
theorem c10_counterexample :
    processFrame (fun _ => [DomNode.elem "li" "" [DomNode.text "x"]])
      idMatches [] 0 [DomNode.elem "ul" "list" []]
      [{ method := some "DELETE", selector := some "#missing" },
       { method := some "POST", selector := some "#list",
         content := some "<li>x</li>" }] =
      ([DomNode.elem "ul" "list" [DomNode.elem "li" "" [DomNode.text "x"]]],
       [⟨{ method := some "POST", selector := some "#list",
           content := some "<li>x</li>" },
         ApplyResult.appended
           (DomNode.elem "ul" "list" [DomNode.elem "li" "" [DomNode.text "x"]])⟩]) := by
  simp [processFrame, processStreamItem, applyUpdate, isEcho, List.lookup,
    jsToUpper_POST, jsToUpper_DELETE, truthyStr, cssMatch, idMatches,
    DomNode.isElem, findFirstList, findFirstNode, editList, editNode,
    DomNode.appendChildren, ApplyResult.isTruthy]

/-- C10 amended: an update whose address matches no node yields the
falsy no-application: the tree is not mutated, no exception is raised
and no notification fires for that update — nothing is reported, not
even an error — and processing of the remaining updates of the frame
continues exactly as if the unmatched update were absent. -/
theorem c10_no_match_silently_skipped (parse : String → List DomNode)
    (engine : String → DomNode → Bool)
    (lc : List (String × LocalChange)) (now : Nat)
    (doc : List DomNode) (u : Update) (sel : String) (rest : List Update)
    (hsel : u.selector = some sel) (hne : (sel == "") = false)
    (hecho : isEcho lc now sel u.method = false)
    (hfind : findFirstList (cssMatch engine sel) doc = none) :
    applyUpdate parse engine lc now doc u = (ApplyResult.notApplied, doc) ∧
    processStreamItem parse engine lc now doc u = (doc, []) ∧
    processFrame parse engine lc now doc (u :: rest) =
      processFrame parse engine lc now doc rest := by
  have h1 : applyUpdate parse engine lc now doc u = (ApplyResult.notApplied, doc) := by
    simp [applyUpdate, hsel, hne, hecho, hfind]
  have h2 : processStreamItem parse engine lc now doc u = (doc, []) := by
    simp [processStreamItem, h1, ApplyResult.isTruthy]
  refine ⟨h1, h2, ?_⟩
  rw [processFrame_cons, h2]
  simp

theorem c10_witness :
    applyUpdate (fun _ => []) idMatches [] 0 [DomNode.elem "ul" "list" []]
      { method := some "DELETE", selector := some "#missing" } =
      (ApplyResult.notApplied, [DomNode.elem "ul" "list" []]) ∧
    processStreamItem (fun _ => []) idMatches [] 0 [DomNode.elem "ul" "list" []]
      { method := some "DELETE", selector := some "#missing" } =
      ([DomNode.elem "ul" "list" []], []) ∧
    processFrame (fun _ => []) idMatches [] 0 [DomNode.elem "ul" "list" []]
      [{ method := some "DELETE", selector := some "#missing" }] =
      processFrame (fun _ => []) idMatches [] 0 [DomNode.elem "ul" "list" []] [] :=
  c10_no_match_silently_skipped (fun _ => []) idMatches [] 0
    [DomNode.elem "ul" "list" []]
    { method := some "DELETE", selector := some "#missing" } "#missing" []
    rfl (by decide) rfl
    (by simp [findFirstList, findFirstNode, cssMatch, idMatches, DomNode.isElem])
